import Mathlib

/-!
Shallow embedding of the DirectFB-media-samples programs
(df_databuffer.c, df_font_sample.c, df_image_sample.c, df_video_sample.c,
fs_music_sample.c) and proofs about the spec claims.

Machine integers of the C sources are modelled as Int (values stay far from
any overflow boundary); opaque library handles are modelled as Nat tags;
results of external library calls are oracle parameters.
-/

namespace DFBMedia

/-- Result of a DirectFB / FusionSound library call. `ok` stands for
DFB_OK / DR_OK, `failure` for any non-OK error code. -/
inductive LibResult where
  | ok
  | failure
deriving DecidableEq, Repr, Fintype

/-- Outcome of one wrapped library call. -/
inductive CheckOutcome where
  | proceed
  | fatalAbort
deriving DecidableEq, Repr

/-- The DFBCHECK / FSCHECK macro (df_databuffer.c lines 28-35,
fs_music_sample.c lines 27-35): if the call result is not OK, the call site
is printed and DirectFBErrorFatal / FusionSoundErrorFatal aborts the
program; otherwise execution proceeds. -/
def DFBCHECK (r : LibResult) : CheckOutcome :=
  if r = LibResult.ok then CheckOutcome.proceed else CheckOutcome.fatalAbort

/-- How a call to render_font_page ends. -/
inductive PageOutcome where
  | fatalAbort        -- a DFBCHECK-wrapped call failed, program aborted
  | errorMessageDrawn -- the page font could not be loaded: an error note is
                      -- drawn on the surface and the function returns
  | rendered          -- the glyph page was rendered
deriving DecidableEq, Repr

/-- Control flow of render_font_page (df_font_sample.c lines 125-304) as a
function of the library results it observes: `fixedfontRes` is the
DFBCHECK-wrapped CreateFont for the fixed font (line 146), `fontRes` the
unwrapped CreateFont for the page font (line 158) whose failure draws
"failed opening ..." and returns, `ascenderRes` / `descenderRes` the
DFBCHECK-wrapped GetAscender / GetDescender (lines 174-175) and `glyphRes`
the DFBCHECK-wrapped GetGlyphExtents calls of the glyph loop (line 276). -/
def render_font_page (fixedfontRes fontRes ascenderRes descenderRes glyphRes :
    LibResult) : PageOutcome :=
  if fixedfontRes ≠ LibResult.ok then PageOutcome.fatalAbort
  else if fontRes ≠ LibResult.ok then PageOutcome.errorMessageDrawn
  else if ascenderRes ≠ LibResult.ok then PageOutcome.fatalAbort
  else if descenderRes ≠ LibResult.ok then PageOutcome.fatalAbort
  else if glyphRes ≠ LibResult.ok then PageOutcome.fatalAbort
  else PageOutcome.rendered

/-- CLAMP(x, min, max) from direct/util.h. -/
def CLAMP (x lo hi : Int) : Int := if x < lo then lo else if x > hi then hi else x

/-- The four fields of DFBColorAdjustment touched by adjust_color. -/
structure ColorAdjustment where
  brightness : Int
  contrast : Int
  hue : Int
  saturation : Int
deriving DecidableEq, Repr

/-- Which DFBColorAdjustmentFlags bits are set (DCAF_BRIGHTNESS etc.). -/
structure AdjFlags where
  brightness : Bool
  contrast : Bool
  hue : Bool
  saturation : Bool
deriving DecidableEq, Repr

/-- adjust_color (df_video_sample.c lines 288-310): each field whose flag is
selected is set to CLAMP(old + step, 0, 0xffff); the four updates act on
distinct fields, so the source's in-place update sequence is the record
below. The window-id lookup of the multi-window variant is elided: the
claims concern the arithmetic on the found entry. -/
def adjust_color (flags : AdjFlags) (adj : ColorAdjustment) (step : Int) :
    ColorAdjustment :=
  { brightness := if flags.brightness then CLAMP (adj.brightness + step) 0 0xffff
                  else adj.brightness
    contrast := if flags.contrast then CLAMP (adj.contrast + step) 0 0xffff
                else adj.contrast
    hue := if flags.hue then CLAMP (adj.hue + step) 0 0xffff else adj.hue
    saturation := if flags.saturation then CLAMP (adj.saturation + step) 0 0xffff
                  else adj.saturation }

/-- What the claim about adjust_color asserts of one call: selected fields
become the clamped stepped value and land in [0, 0xffff]; unselected fields
are untouched. -/
def adjustSpec (flags : AdjFlags) (adj new : ColorAdjustment) (step : Int) : Prop :=
  (new.brightness =
      if flags.brightness then CLAMP (adj.brightness + step) 0 0xffff
      else adj.brightness) ∧
  (new.contrast =
      if flags.contrast then CLAMP (adj.contrast + step) 0 0xffff
      else adj.contrast) ∧
  (new.hue = if flags.hue then CLAMP (adj.hue + step) 0 0xffff else adj.hue) ∧
  (new.saturation =
      if flags.saturation then CLAMP (adj.saturation + step) 0 0xffff
      else adj.saturation) ∧
  (flags.brightness = true → 0 ≤ new.brightness ∧ new.brightness ≤ 0xffff) ∧
  (flags.contrast = true → 0 ≤ new.contrast ∧ new.contrast ≤ 0xffff) ∧
  (flags.hue = true → 0 ≤ new.hue ∧ new.hue ≤ 0xffff) ∧
  (flags.saturation = true → 0 ≤ new.saturation ∧ new.saturation ≤ 0xffff) ∧
  (flags.brightness = false → new.brightness = adj.brightness) ∧
  (flags.contrast = false → new.contrast = adj.contrast) ∧
  (flags.hue = false → new.hue = adj.hue) ∧
  (flags.saturation = false → new.saturation = adj.saturation)

/-- Window position computed by add_window (src/unnamed/part_000 lines 82-84
and the video stack variant in df_databuffer.c lines 614-616):
posx = 32 * direct_hash_count(window_stack),
posy = 18 * direct_hash_count(window_stack). -/
def add_window_pos (stackCount : Nat) : Nat × Nat :=
  (32 * stackCount, 18 * stackCount)

/-- Window positions produced by create_stack (df_image_sample.c lines
92-119, identically df_video_sample.c lines 111-145): wdsc.posx / wdsc.posy
start at 0 and the loop header advances them by 10 and 5 per window. -/
def create_stack_go : Nat → Nat → Nat → List (Nat × Nat)
  | 0, _, _ => []
  | Nat.succ k, posx, posy => (posx, posy) :: create_stack_go k (posx + 10) (posy + 5)

/-- Positions of the nWindows windows created by create_stack, in creation
order. -/
def create_stack_positions (nWindows : Nat) : List (Nat × Nat) :=
  create_stack_go nWindows 0 0

/-- Kinds of opaque handles tracked in the df_databuffer tests. The primary
surface and the IDirectFB handle live for the whole program and are released
by the atexit handler dfb_shutdown; they are outside these per-test traces. -/
inductive HKind where
  | dataBuffer
  | font
  | surface
  | imageProvider
  | videoProvider
  | streamThread
deriving DecidableEq, Repr

/-- Handle lifecycle events. A thread's `release` is the
direct_thread_cancel / join / destroy sequence; `fatalAbort` marks
DirectFBErrorFatal, after which the atexit handler dfb_shutdown still
releases the interfaces that are non-NULL at that point. -/
inductive ResEv where
  | create (h : HKind)
  | release (h : HKind)
  | fatalAbort
deriving DecidableEq, Repr

/-- Handle events of test_file (df_databuffer.c lines 81-151). `useVideo`
and `useImage` are the --video / --image flags (main rejects setting both);
`imageOk` / `videoOk` are the results of CreateImageProvider /
CreateVideoProvider. The local `buffer` is overwritten by the second
CreateDataBuffer (line 102) and neither data buffer is ever released. If no
provider can be created, DirectFBErrorFatal fires (line 119) and
dfb_shutdown releases the font (the only tracked non-NULL handle then). -/
def test_file_trace (useVideo useImage imageOk videoOk : Bool) : List ResEv :=
  let haveImage := !useVideo && imageOk
  let haveVideo := !haveImage && (!useImage && videoOk)
  [ResEv.create HKind.dataBuffer,      -- dfb->CreateDataBuffer (font), line 95
   ResEv.create HKind.font,            -- buffer->CreateFont, line 96
   ResEv.create HKind.dataBuffer] ++   -- dfb->CreateDataBuffer (media), line 102
  (if haveImage then
     [ResEv.create HKind.imageProvider,
      ResEv.create HKind.surface,          -- dfb->CreateSurface, line 121
      ResEv.release HKind.surface,         -- line 136
      ResEv.release HKind.imageProvider,   -- line 140
      ResEv.release HKind.font]            -- line 149
   else if haveVideo then
     [ResEv.create HKind.videoProvider,
      ResEv.create HKind.surface,
      ResEv.release HKind.surface,
      ResEv.release HKind.videoProvider,   -- line 145
      ResEv.release HKind.font]
   else
     [ResEv.fatalAbort,                    -- line 119
      ResEv.release HKind.font])           -- dfb_shutdown, line 377

/-- Handle events of test_streamed (df_databuffer.c lines 296-369). The
locals `buffer` and `streaming_thread` are overwritten by the second
CreateDataBuffer / direct_thread_create (lines 315-316), so only the Media
Streamer thread is ever cancelled, joined and destroyed (lines 350-352),
and neither data buffer is ever released. -/
def test_streamed_trace (useVideo useImage imageOk videoOk : Bool) : List ResEv :=
  let haveImage := !useVideo && imageOk
  let haveVideo := !haveImage && (!useImage && videoOk)
  [ResEv.create HKind.dataBuffer,      -- line 308 (font buffer)
   ResEv.create HKind.streamThread,    -- line 309, "Font Streamer"
   ResEv.create HKind.font,            -- line 310
   ResEv.create HKind.dataBuffer,      -- line 315 (media buffer)
   ResEv.create HKind.streamThread] ++ -- line 316, "Media Streamer"
  (if haveImage then
     [ResEv.create HKind.imageProvider,
      ResEv.create HKind.surface,          -- line 335
      ResEv.release HKind.streamThread,    -- lines 350-352
      ResEv.release HKind.surface,         -- line 354
      ResEv.release HKind.imageProvider,
      ResEv.release HKind.font]            -- line 367
   else if haveVideo then
     [ResEv.create HKind.videoProvider,
      ResEv.create HKind.surface,
      ResEv.release HKind.streamThread,
      ResEv.release HKind.surface,
      ResEv.release HKind.videoProvider,
      ResEv.release HKind.font]
   else
     [ResEv.fatalAbort,                    -- line 333
      ResEv.release HKind.font])

/-- Number of times a handle of the given kind is obtained in a trace. -/
def createCount (t : List ResEv) (h : HKind) : Nat := t.count (ResEv.create h)

/-- Number of times a handle of the given kind is released in a trace. -/
def releaseCount (t : List ResEv) (h : HKind) : Nat := t.count (ResEv.release h)

/-- One iteration's observations in the streamer loop: `len` is the
buffer->GetLength result, `bytes` the direct_file_read result (0 at end of
file; bytes is a size_t, so `bytes <= 0` in the source means 0). -/
structure StreamerObs where
  len : Nat
  bytes : Nat
deriving DecidableEq, Repr

/-- Externally visible actions of one streamer iteration. -/
inductive StreamerEv where
  | sleep (usec : Int)   -- usleep(usec)
  | putData (bytes : Nat) -- buffer->PutData
  | finish                -- buffer->Finish
deriving DecidableEq, Repr

/-- The streamer thread loop (df_databuffer.c lines 250-294), iteration by
iteration: usleep(usec); GetLength; if the buffer holds at least 64*1024
bytes, usec += 100 and continue; else usec = MAX(usec - 100, 1000), read;
at end of file Finish and break, otherwise PutData and loop. Each list
entry pairs the iteration's observation with the events it produced. -/
def streamer_run : List StreamerObs → Int → List (StreamerObs × List StreamerEv)
  | [], _ => []
  | o :: rest, usec =>
    if 64 * 1024 ≤ o.len then
      (o, [StreamerEv.sleep usec]) :: streamer_run rest (usec + 100)
    else if o.bytes = 0 then
      [(o, [StreamerEv.sleep usec, StreamerEv.finish])]
    else
      (o, [StreamerEv.sleep usec, StreamerEv.putData o.bytes]) ::
        streamer_run rest (max (usec - 100) 1000)

/-- The flat event trace of the same loop (streamer_run with the
per-iteration grouping dropped). -/
def streamer_events : List StreamerObs → Int → List StreamerEv
  | [], _ => []
  | o :: rest, usec =>
    if 64 * 1024 ≤ o.len then
      StreamerEv.sleep usec :: streamer_events rest (usec + 100)
    else if o.bytes = 0 then
      [StreamerEv.sleep usec, StreamerEv.finish]
    else
      StreamerEv.sleep usec :: StreamerEv.putData o.bytes ::
        streamer_events rest (max (usec - 100) 1000)

/-- The pacing contract of the streamer thread: data is only submitted in
iterations that observed the ring buffer below 64*1024 bytes; every sleep
waits at least 1000 microseconds; an iteration that observes end of file
(with room in the buffer) signals Finish; Finish occurs at most once, and
when it occurs it is the final event of the trace. -/
def streamerPaced (obs : List StreamerObs) (usec : Int) : Prop :=
  (∀ p ∈ streamer_run obs usec, ∀ b, StreamerEv.putData b ∈ p.2 →
      p.1.len < 64 * 1024) ∧
  (∀ p ∈ streamer_run obs usec, ∀ u, StreamerEv.sleep u ∈ p.2 → 1000 ≤ u) ∧
  (∀ p ∈ streamer_run obs usec, p.1.len < 64 * 1024 → p.1.bytes = 0 →
      StreamerEv.finish ∈ p.2) ∧
  (streamer_events obs usec).count StreamerEv.finish ≤ 1 ∧
  (StreamerEv.finish ∈ streamer_events obs usec →
      (streamer_events obs usec).getLast? = some StreamerEv.finish)

/-- Lookup in the external library's hash-table utility (direct/hash.h),
modelled as an association list from window ids to stored values. -/
def direct_hash_lookup {V : Type} (stack : List (Nat × V)) (id : Nat) : Option V :=
  match stack with
  | [] => none
  | (k, v) :: rest => if k = id then some v else direct_hash_lookup rest id

/-- Removal from the modelled hash table (keys are unique in the samples:
each window id is inserted once). -/
def direct_hash_remove {V : Type} (stack : List (Nat × V)) (id : Nat) :
    List (Nat × V) :=
  match stack with
  | [] => []
  | (k, v) :: rest => if k = id then rest else (k, v) :: direct_hash_remove rest id

/-- A window-stack entry of df_image_sample.c (lines 49-52): the window and
its surface, as opaque handle tags. -/
structure StackEntry where
  window : Nat
  surface : Nat
deriving DecidableEq, Repr

/-- remove_window (df_image_sample.c lines 122-137, identically
df_video_sample.c lines 147-162): look the id up in the window stack; if
found, release the entry's surface and window, free the entry, remove it
from the hash and return the window; otherwise return NULL and leave the
stack alone. -/
def remove_window (stack : List (Nat × StackEntry)) (id : Nat) :
    Option Nat × List (Nat × StackEntry) :=
  match direct_hash_lookup stack id with
  | some entry => (some entry.window, direct_hash_remove stack id)
  | none => (none, stack)

/-- remove_window of the multi-image variant (src/unnamed/part_000 lines
109-120): the stack stores the window handle directly and the function
returns whether an entry was removed. -/
def remove_window_b (stack : List (Nat × Nat)) (id : Nat) :
    Bool × List (Nat × Nat) :=
  match direct_hash_lookup stack id with
  | some _ => (true, direct_hash_remove stack id)
  | none => (false, stack)

/-- Events df_image_sample's main loop reacts to. A `keydownQuit` is
DIKS_ESCAPE / q / BACK / STOP / EXIT; other keydowns and all remaining
event types fall through the switch. -/
inductive ImageEv where
  | keydownQuit
  | keydownOther
  | close (id : Nat)
  | otherEvent
deriving DecidableEq, Repr

/-- State of df_image_sample's main loop: the window stack and the
n_windows counter. -/
structure ImageLoopState where
  stack : List (Nat × StackEntry)
  nWindows : Int
deriving DecidableEq, Repr

/-- The event-processing loop of df_image_sample's main (lines 319-359):
a quit key calls dfb_shutdown and returns 42; a DWET_CLOSE removes the
window and, when remove_window found it and --n_windows drops to 0 or
below, also returns 42; everything else keeps pumping. `none` is the
exited program, `some s` the still-running loop after consuming the
events. -/
def image_loop_run : List ImageEv → ImageLoopState → Option ImageLoopState
  | [], s => some s
  | e :: rest, s =>
    match e with
    | ImageEv.keydownQuit => none
    | ImageEv.keydownOther => image_loop_run rest s
    | ImageEv.close id =>
      match remove_window s.stack id with
      | (some _, stack') =>
        if s.nWindows - 1 ≤ 0 then none
        else image_loop_run rest { stack := stack', nWindows := s.nWindows - 1 }
      | (none, _) => image_loop_run rest s
    | ImageEv.otherEvent => image_loop_run rest s

/-- Mutable state of df_font_sample's main loop (lines 342-551 together
with the file-scope navigation variables, lines 53-66). The C ints that are
used as booleans are modelled as Bool. -/
structure FontState where
  firstGlyph : Int
  currentFont : Int
  glyphsPerXline : Int
  glyphsPerYline : Int
  showAscender : Bool
  showDescender : Bool
  showBaseline : Bool
  showGlyphrect : Bool
  showGlyphadvance : Bool
  showGlyphorigin : Bool
  antialias : Bool
  unicodeMode : Bool
  showHelp : Bool
  update : Bool
deriving DecidableEq, Repr

/-- Initial values of the navigation state (df_font_sample.c lines 53-66
and 347-349). -/
def fontInit : FontState :=
  { firstGlyph := 0, currentFont := 0, glyphsPerXline := 16, glyphsPerYline := 16,
    showAscender := false, showDescender := false, showBaseline := false,
    showGlyphrect := false, showGlyphadvance := false, showGlyphorigin := false,
    antialias := true, unicodeMode := true, showHelp := false, update := true }

/-- GLYPHS_PER_PAGE (df_font_sample.c line 68). -/
def GLYPHS_PER_PAGE (s : FontState) : Int := s.glyphsPerXline * s.glyphsPerYline

/-- Key symbols the font sample's keydown switch distinguishes
(DFB_LOWER_CASE applied, df_font_sample.c lines 441-544). -/
inductive FontKey where
  | quitKey    -- DIKS_ESCAPE, q, DIKS_BACK, DIKS_STOP, DIKS_EXIT
  | pageDown   -- DIKS_PAGE_DOWN, DIKS_CURSOR_RIGHT
  | pageUp     -- DIKS_PAGE_UP, DIKS_CURSOR_LEFT
  | nextFont   -- DIKS_SPACE, DIKS_CURSOR_UP
  | prevFont   -- DIKS_BACKSPACE, DIKS_CURSOR_DOWN
  | keyA
  | keyD
  | keyB
  | keyR
  | keyG
  | keyO
  | keyM
  | keyU
  | helpKey    -- h, DIKS_F1, DIKS_HELP
  | minusKey
  | plusKey
  | otherKey
deriving DecidableEq, Repr

/-- Window events seen by the font sample: only DWET_KEYUP and
DWET_KEYDOWN are inspected (lines 434-545). -/
inductive FontEv where
  | keyup
  | keydown (k : FontKey)
deriving DecidableEq, Repr

/-- The DWET_KEYDOWN switch of df_font_sample's main loop (lines 441-544);
`count` is fontfile_count. `none` is the program returning 42 on a quit
key. -/
def font_keydown (count : Int) (s : FontState) : FontKey → Option FontState
  | FontKey.quitKey => none
  | FontKey.pageDown =>
    let fg := s.firstGlyph + GLYPHS_PER_PAGE s
    let fg := if fg > 0xffff then 0 else fg
    some { s with firstGlyph := fg, update := true }
  | FontKey.pageUp =>
    let fg := s.firstGlyph - GLYPHS_PER_PAGE s
    let fg := if fg < 0 then 0x10000 - GLYPHS_PER_PAGE s else fg
    some { s with firstGlyph := fg, update := true }
  | FontKey.nextFont =>
    let cf := s.currentFont + 1
    some { s with currentFont := if cf ≥ count then 0 else cf, update := true }
  | FontKey.prevFont =>
    let cf := s.currentFont - 1
    some { s with currentFont := if cf < 0 then count - 1 else cf, update := true }
  | FontKey.keyA => some { s with showAscender := !s.showAscender, update := true }
  | FontKey.keyD => some { s with showDescender := !s.showDescender, update := true }
  | FontKey.keyB => some { s with showBaseline := !s.showBaseline, update := true }
  | FontKey.keyR => some { s with showGlyphrect := !s.showGlyphrect, update := true }
  | FontKey.keyG =>
    some { s with showGlyphadvance := !s.showGlyphadvance, update := true }
  | FontKey.keyO =>
    some { s with showGlyphorigin := !s.showGlyphorigin, update := true }
  | FontKey.keyM => some { s with antialias := !s.antialias, update := true }
  | FontKey.keyU => some { s with unicodeMode := !s.unicodeMode, update := true }
  | FontKey.helpKey =>
    if !s.showHelp then some { s with showHelp := true, update := true } else some s
  | FontKey.minusKey =>
    let x := if s.glyphsPerXline > 1 then s.glyphsPerXline - 1 else s.glyphsPerXline
    let y := if s.glyphsPerYline > 1 then s.glyphsPerYline - 1 else s.glyphsPerYline
    some { s with glyphsPerXline := x, glyphsPerYline := y, update := true }
  | FontKey.plusKey =>
    some { s with glyphsPerXline := s.glyphsPerXline + 1,
                  glyphsPerYline := s.glyphsPerYline + 1, update := true }
  | FontKey.otherKey => some s

/-- One event of the font sample's inner GetEvent loop (lines 433-546):
any DWET_KEYUP closes the help page; DWET_KEYDOWN dispatches on the key. -/
def font_step (count : Int) (s : FontState) : FontEv → Option FontState
  | FontEv.keyup =>
    some (if s.showHelp then { s with showHelp := false, update := true } else s)
  | FontEv.keydown k => font_keydown count s k

/-- The font sample's event loop over a list of delivered events: `none`
is the exited program (quit key), `some s` the state still pumping. -/
def font_run (count : Int) : List FontEv → FontState → Option FontState
  | [], s => some s
  | e :: rest, s =>
    match font_step count s e with
    | none => none
    | some s' => font_run count rest s'

/-- The in-range invariant claimed for the font sample's navigation state;
`count` is fontfile_count. -/
def fontInv (count : Int) (s : FontState) : Prop :=
  0 ≤ s.firstGlyph ∧ s.firstGlyph ≤ 0xffff ∧
  0 ≤ s.currentFont ∧ s.currentFont < count ∧
  1 ≤ s.glyphsPerXline ∧ 1 ≤ s.glyphsPerYline

/-- Decidable check that along a whole event trace the page size
glyphs_per_xline * glyphs_per_yline never exceeds 0x10000 (it starts at
256 and only the '+' key grows it). -/
def font_pages_bounded (count : Int) : List FontEv → FontState → Bool
  | [], _ => true
  | e :: rest, s =>
    decide (GLYPHS_PER_PAGE s ≤ 0x10000) &&
      match font_step count s e with
      | none => true
      | some s' => font_pages_bounded count rest s'

/-- The key trace falsifying the unbounded in-range claim: 241 presses of
'+' (page size 257 * 257 = 66049 > 0x10000) followed by page-up. -/
def fontOverflowTrace : List FontEv :=
  List.replicate 241 (FontEv.keydown FontKey.plusKey) ++
    [FontEv.keydown FontKey.pageUp]

/-! ### fs_music_sample -/

/-- FSMusicProviderStatus values the player inspects. -/
inductive FSStatus where
  | unknown
  | playing
  | stopped
  | finished  -- FMSTATE_FINISHED
deriving DecidableEq, Repr

/-- Keyboard characters of fs_music_sample that change the loop-control
state (lines 401-486). The remaining keys (p, s, f, b, digits, l, volume
and pitch keys) only issue library calls or tweak print/volume state and
never alter which track or media plays next, nor quit/repeat. -/
inductive MKey where
  | quitKey      -- q, Q, ESC: quit = 1, status = FMSTATE_FINISHED
  | nextTrack    -- '>': Stop, status = FMSTATE_FINISHED
  | prevTrack    -- '<': retarget track_next / media_next, then falls
                 -- through to the '>' body
  | toggleRepeat -- 'r': repeat = !repeat
  | otherKey
deriving DecidableEq, Repr

/-- Loop-control variables threaded through fs_music_sample's nested loops:
the quit and repeat flags and the track_next / media_next iteration targets
(indices into the track list of the current media and into the media list;
none is the NULL link ending a list walk). -/
structure FsCtl where
  quit : Bool
  repeatOn : Bool
  trackNext : Option Nat
  mediaNext : Option Nat
deriving DecidableEq, Repr

/-- In direct/list.h the head element's prev link points at the tail, so
media->link.prev of the first media is the last one. -/
def direct_link_prev (len idx : Nat) : Nat := if idx = 0 then len - 1 else idx - 1

/-- The char switch of the playback loop (fs_music_sample.c lines 401-486)
restricted to its loop-control effect. `tlen`/`t` and `mlen`/`m` locate the
current track and media; the pair carries the `status` variable and the
control record. -/
def fs_process_key (tlen t mlen m : Nat) (p : FSStatus × FsCtl) (k : MKey) :
    FSStatus × FsCtl :=
  match k with
  | MKey.quitKey => (FSStatus.finished, { p.2 with quit := true })
  | MKey.nextTrack => (FSStatus.finished, p.2)
  | MKey.prevTrack =>
    let c := if t = 0 then { p.2 with mediaNext := some (direct_link_prev mlen m) }
             else { p.2 with trackNext := some (t - 1) }
    (FSStatus.finished, c)
  | MKey.toggleRepeat => (p.1, { p.2 with repeatOn := !p.2.repeatOn })
  | MKey.otherKey => p

/-- One track's playback session as seen by the loop: whether SelectTrack
succeeds, whether the stream setup (CreateStream / PlayToStream) succeeds,
and the polled status plus keyboard characters of each pass of the inner
do-while (lines 349-491). -/
structure TrackSession where
  selectOk : Bool
  streamOk : Bool
  polls : List (FSStatus × List MKey)
deriving DecidableEq, Repr

/-- One media (command-line file): whether CreateMusicProvider succeeds and
the track list EnumTracks produces. -/
structure MediaSpec where
  createOk : Bool
  tracks : List TrackSession
deriving DecidableEq, Repr

/-- The inner do-while of one track (lines 349-491): each pass polls
GetStatus, then processes the pending characters, and loops until status is
FMSTATE_FINISHED. `none` means the poll oracle ran out while the loop was
still pumping. -/
def fs_play_track (tlen t mlen m : Nat) :
    List (FSStatus × List MKey) → FsCtl → Option FsCtl
  | [], _ => none
  | (st, keys) :: rest, c =>
    let r := keys.foldl (fs_process_key tlen t mlen m) (st, c)
    if r.1 = FSStatus.finished then some r.2
    else fs_play_track tlen t mlen m rest r.2

/-- The for-track loop (lines 253-497): at each track, track_next defaults
to the list successor, a failed SelectTrack skips to track_next, a failed
stream setup breaks out of the track loop, and a finished playback session
continues at the (possibly retargeted) track_next. The source checks no
quit flag here. `fuel` bounds the walk (the '<' key can move backwards). -/
def fs_tracks (mlen m : Nat) (media : MediaSpec) :
    Nat → Option Nat → FsCtl → Option FsCtl
  | 0, _, _ => none
  | _ + 1, none, c => some c
  | fuel + 1, some t, c =>
    match media.tracks[t]? with
    | none => some c
    | some ts =>
      let c := { c with trackNext :=
                  if t + 1 < media.tracks.length then some (t + 1) else none }
      if !ts.selectOk then fs_tracks mlen m media fuel c.trackNext c
      else if !ts.streamOk then some c
      else
        match fs_play_track media.tracks.length t mlen m ts.polls c with
        | none => none
        | some c' => fs_tracks mlen m media fuel c'.trackNext c'

/-- The for-media loop (lines 231-511): runs while a media is left and quit
is unset; media_next defaults to the list successor; a failed
CreateMusicProvider skips to media_next; otherwise the media's tracks play
and the walk continues at the (possibly retargeted) media_next. -/
def fs_medias (medias : List MediaSpec) :
    Nat → Option Nat → FsCtl → Option FsCtl
  | 0, _, _ => none
  | _ + 1, none, c => some c
  | fuel + 1, some m, c =>
    if c.quit then some c
    else
      match medias[m]? with
      | none => some c
      | some media =>
        let c := { c with mediaNext :=
                    if m + 1 < medias.length then some (m + 1) else none }
        if !media.createOk then fs_medias medias fuel c.mediaNext c
        else
          match fs_tracks medias.length m media fuel
              (if media.tracks.length = 0 then none else some 0) c with
          | none => none
          | some c' => fs_medias medias fuel c'.mediaNext c'

/-- The outer do-while (lines 228-512): the media walk repeats while repeat
is set and quit is unset; on exit main runs fs_shutdown and returns.
`some q` is the terminated program with the final quit flag q; `none` means
the loop is still pumping (oracle or fuel ran out). -/
def fs_main_loop (medias : List MediaSpec) : Nat → FsCtl → Option Bool
  | 0, _ => none
  | fuel + 1, c =>
    match fs_medias medias fuel
        (if medias.length = 0 then none else some 0) c with
    | none => none
    | some c' =>
      if c'.repeatOn && !c'.quit then fs_main_loop medias fuel c'
      else some c'.quit

/-- Initial control state (fs_music_sample.c lines 143-146). -/
def fsInitCtl : FsCtl :=
  { quit := false, repeatOn := false, trackNext := none, mediaNext := none }

/-- True when the playlist oracle contains no keyboard input at all. -/
def fs_no_input (medias : List MediaSpec) : Bool :=
  medias.all fun media =>
    media.tracks.all fun ts => ts.polls.all fun p => p.2.isEmpty

/-- A one-file playlist whose single track plays to its natural end with no
key ever pressed. -/
def fsPlaylistDone : List MediaSpec :=
  [{ createOk := true,
     tracks := [{ selectOk := true, streamOk := true,
                  polls := [(FSStatus.finished, [])] }] }]

/-! ### Straight-line call trace of the viewers' main functions -/

/-- Call-level events of df_image_sample's / df_video_sample's main.
`waitForEvent` marks the first pass of the event loop; `shutdownRelease`
the dfb_shutdown call that releases all handles when the loop exits. -/
inductive MainEv where
  | argcCheck
  | initDirectFB
  | parseLoop
  | mrlCheck
  | directFBCreate
  | getDisplayLayer
  | createEventBuffer
  | createImageProvider
  | createVideoProvider
  | getSurfaceDescription
  | dumpInfo
  | createFrame
  | createLogo
  | createStack
  | setPlaybackFlags
  | renderTo
  | playTo
  | waitForEvent
  | shutdownRelease
deriving DecidableEq, Repr

/-- The call sequence of df_image_sample's main (lines 229-363) on the
non-fatal path, as a function of the --info and logo options. -/
def image_main_trace (info useLogo : Bool) : List MainEv :=
  [MainEv.argcCheck, MainEv.initDirectFB, MainEv.parseLoop, MainEv.mrlCheck,
   MainEv.directFBCreate, MainEv.getDisplayLayer, MainEv.createEventBuffer,
   MainEv.createImageProvider, MainEv.getSurfaceDescription] ++
  (if info then [MainEv.dumpInfo] else []) ++
  [MainEv.createFrame] ++
  (if useLogo then [MainEv.createLogo] else []) ++
  [MainEv.createStack, MainEv.renderTo, MainEv.waitForEvent,
   MainEv.shutdownRelease]

/-- The call sequence of df_video_sample's main (lines 363-645) on the
non-fatal path (GetCapabilities folded into getSurfaceDescription). -/
def video_main_trace (info useLogo : Bool) : List MainEv :=
  [MainEv.argcCheck, MainEv.initDirectFB, MainEv.parseLoop, MainEv.mrlCheck,
   MainEv.directFBCreate, MainEv.getDisplayLayer, MainEv.createEventBuffer,
   MainEv.createVideoProvider, MainEv.getSurfaceDescription] ++
  (if info then [MainEv.dumpInfo] else []) ++
  [MainEv.createFrame] ++
  (if useLogo then [MainEv.createLogo] else []) ++
  [MainEv.createStack, MainEv.setPlaybackFlags, MainEv.playTo,
   MainEv.waitForEvent, MainEv.shutdownRelease]

/-- Position of the first occurrence of an event in a trace (length of the
trace when absent). -/
def evIdx (t : List MainEv) (e : MainEv) : Nat := t.indexOf e

/-- The phase ordering the claim demands of a viewer trace: argument
parsing before the main interface is created, the main interface before the
provider, the provider before rendering/playback starts, rendering/playback
before the first event poll, and the poll before the releases. -/
def phaseOrdered (t : List MainEv) (provider render : MainEv) : Prop :=
  provider ∈ t ∧ render ∈ t ∧
  evIdx t MainEv.parseLoop < evIdx t MainEv.directFBCreate ∧
  evIdx t MainEv.directFBCreate < evIdx t provider ∧
  evIdx t provider < evIdx t render ∧
  evIdx t render < evIdx t MainEv.waitForEvent ∧
  evIdx t MainEv.waitForEvent < evIdx t MainEv.shutdownRelease

/-- The per-handle create/release balance that actually holds of one
df_databuffer test trace: font, surface and providers are matched exactly,
while the two data buffers are never released. -/
def tracksBalanced (t : List ResEv) : Prop :=
  (createCount t HKind.font = 1 ∧ releaseCount t HKind.font = 1) ∧
  (createCount t HKind.surface = releaseCount t HKind.surface) ∧
  (createCount t HKind.imageProvider = releaseCount t HKind.imageProvider) ∧
  (createCount t HKind.videoProvider = releaseCount t HKind.videoProvider) ∧
  (createCount t HKind.dataBuffer = 2 ∧ releaseCount t HKind.dataBuffer = 0)

/-! ## Theorems -/

theorem CLAMP_bounds (x lo hi : Int) (h : lo ≤ hi) :
    lo ≤ CLAMP x lo hi ∧ CLAMP x lo hi ≤ hi := by
  unfold CLAMP
  split
  · omega
  · split <;> omega

theorem create_stack_go_getElem (n : Nat) :
    ∀ (x y k : Nat), k < n →
      (create_stack_go n x y)[k]? = some (x + 10 * k, y + 5 * k) := by
  induction n with
  | zero => intro x y k hk; omega
  | succ m ih =>
    intro x y k hk
    cases k with
    | zero => simp [create_stack_go]
    | succ j =>
      have hj : j < m := by omega
      have := ih (x + 10) (y + 5) j hj
      simp only [create_stack_go, List.getElem?_cons_succ]
      rw [this]
      congr 2 <;> omega

theorem streamer_putData_guarded (obs : List StreamerObs) :
    ∀ (usec : Int), ∀ p ∈ streamer_run obs usec,
      ∀ b, StreamerEv.putData b ∈ p.2 → p.1.len < 64 * 1024 := by
  induction obs with
  | nil => intro usec p hp; simp [streamer_run] at hp
  | cons o rest ih =>
    intro usec p hp b hb
    simp only [streamer_run] at hp
    by_cases hlen : 64 * 1024 ≤ o.len
    · rw [if_pos hlen] at hp
      rcases List.mem_cons.mp hp with h | h
      · subst h; simp at hb
      · exact ih (usec + 100) p h b hb
    · rw [if_neg hlen] at hp
      by_cases hb0 : o.bytes = 0
      · rw [if_pos hb0] at hp
        rcases List.mem_cons.mp hp with h | h
        · subst h; simp at hb
        · simp at h
      · rw [if_neg hb0] at hp
        rcases List.mem_cons.mp hp with h | h
        · subst h
          show o.len < 64 * 1024
          omega
        · exact ih (max (usec - 100) 1000) p h b hb

theorem streamer_sleep_paced (obs : List StreamerObs) :
    ∀ (usec : Int), 1000 ≤ usec → ∀ p ∈ streamer_run obs usec,
      ∀ u, StreamerEv.sleep u ∈ p.2 → 1000 ≤ u := by
  induction obs with
  | nil => intro usec _ p hp; simp [streamer_run] at hp
  | cons o rest ih =>
    intro usec husec p hp u hu
    simp only [streamer_run] at hp
    by_cases hlen : 64 * 1024 ≤ o.len
    · rw [if_pos hlen] at hp
      rcases List.mem_cons.mp hp with h | h
      · subst h; simp at hu; omega
      · exact ih (usec + 100) (by omega) p h u hu
    · rw [if_neg hlen] at hp
      by_cases hb0 : o.bytes = 0
      · rw [if_pos hb0] at hp
        rcases List.mem_cons.mp hp with h | h
        · subst h; simp at hu; omega
        · simp at h
      · rw [if_neg hb0] at hp
        rcases List.mem_cons.mp hp with h | h
        · subst h; simp at hu; omega
        · exact ih (max (usec - 100) 1000) (le_max_right _ _) p h u hu

theorem streamer_finish_on_eof (obs : List StreamerObs) :
    ∀ (usec : Int), ∀ p ∈ streamer_run obs usec,
      p.1.len < 64 * 1024 → p.1.bytes = 0 → StreamerEv.finish ∈ p.2 := by
  induction obs with
  | nil => intro usec p hp; simp [streamer_run] at hp
  | cons o rest ih =>
    intro usec p hp hlt heof
    simp only [streamer_run] at hp
    by_cases hlen : 64 * 1024 ≤ o.len
    · rw [if_pos hlen] at hp
      rcases List.mem_cons.mp hp with h | h
      · subst h
        exfalso
        have : o.len < 64 * 1024 := hlt
        omega
      · exact ih (usec + 100) p h hlt heof
    · rw [if_neg hlen] at hp
      by_cases hb0 : o.bytes = 0
      · rw [if_pos hb0] at hp
        rcases List.mem_cons.mp hp with h | h
        · subst h; simp
        · simp at h
      · rw [if_neg hb0] at hp
        rcases List.mem_cons.mp hp with h | h
        · subst h
          exfalso
          have : o.bytes = 0 := heof
          omega
        · exact ih (max (usec - 100) 1000) p h hlt heof

theorem streamer_finish_count (obs : List StreamerObs) :
    ∀ (usec : Int), (streamer_events obs usec).count StreamerEv.finish ≤ 1 := by
  induction obs with
  | nil => intro usec; simp [streamer_events]
  | cons o rest ih =>
    intro usec
    simp only [streamer_events]
    by_cases hlen : 64 * 1024 ≤ o.len
    · rw [if_pos hlen]
      simpa [List.count_cons] using ih (usec + 100)
    · rw [if_neg hlen]
      by_cases hb0 : o.bytes = 0
      · rw [if_pos hb0]; simp [List.count_cons]
      · rw [if_neg hb0]
        simpa [List.count_cons] using ih (max (usec - 100) 1000)

theorem streamer_finish_last (obs : List StreamerObs) :
    ∀ (usec : Int), StreamerEv.finish ∈ streamer_events obs usec →
      (streamer_events obs usec).getLast? = some StreamerEv.finish := by
  induction obs with
  | nil => intro usec h; simp [streamer_events] at h
  | cons o rest ih =>
    intro usec h
    simp only [streamer_events] at h ⊢
    by_cases hlen : 64 * 1024 ≤ o.len
    · rw [if_pos hlen] at h ⊢
      have h' : StreamerEv.finish ∈ streamer_events rest (usec + 100) := by
        rcases List.mem_cons.mp h with h1 | h1
        · simp at h1
        · exact h1
      have hne : streamer_events rest (usec + 100) ≠ [] := List.ne_nil_of_mem h'
      obtain ⟨b, t, hbt⟩ := List.exists_cons_of_ne_nil hne
      rw [hbt, List.getLast?_cons_cons, ← hbt]
      exact ih (usec + 100) h'
    · rw [if_neg hlen] at h ⊢
      by_cases hb0 : o.bytes = 0
      · rw [if_pos hb0]; rfl
      · rw [if_neg hb0] at h ⊢
        have h' : StreamerEv.finish ∈ streamer_events rest (max (usec - 100) 1000) := by
          rcases List.mem_cons.mp h with h1 | h1
          · simp at h1
          · rcases List.mem_cons.mp h1 with h2 | h2
            · simp at h2
            · exact h2
        have hne : streamer_events rest (max (usec - 100) 1000) ≠ [] :=
          List.ne_nil_of_mem h'
        obtain ⟨b, t, hbt⟩ := List.exists_cons_of_ne_nil hne
        rw [hbt, List.getLast?_cons_cons, List.getLast?_cons_cons, ← hbt]
        exact ih (max (usec - 100) 1000) h'

/-- C7: the streamer thread's pacing contract holds for every sequence of
GetLength/read observations and every starting delay of at least the
initial 1000 microseconds (df_databuffer.c line 267): data is only
submitted below the 64*1024 high-water mark, every sleep is at least 1000
microseconds, and end of file produces a single Finish that ends the
loop. -/
theorem C7_streamer_pacing (obs : List StreamerObs) (usec : Int)
    (h0 : 1000 ≤ usec) : streamerPaced obs usec :=
  ⟨streamer_putData_guarded obs usec, streamer_sleep_paced obs usec h0,
   streamer_finish_on_eof obs usec, streamer_finish_count obs usec,
   streamer_finish_last obs usec⟩

/-- Witness for C7_streamer_pacing: a full buffer, a successful read, then
end of file, starting at the initial 1000 microsecond delay. -/
theorem C7_streamer_pacing_witness :
    (1000 : Int) ≤ 1000 ∧
      streamerPaced [⟨70000, 5⟩, ⟨100, 3⟩, ⟨50, 0⟩] 1000 :=
  ⟨le_refl 1000, C7_streamer_pacing [⟨70000, 5⟩, ⟨100, 3⟩, ⟨50, 0⟩] 1000 (le_refl 1000)⟩

/-- C1 counterexample: the claim says every library call with a non-OK
result aborts fatally, but render_font_page's CreateFont for the page font
(df_font_sample.c line 158) is not wrapped in DFBCHECK: when it alone fails
the function draws an error message and returns instead of aborting. -/
theorem C1_counterexample :
    render_font_page LibResult.ok LibResult.failure LibResult.ok LibResult.ok
        LibResult.ok = PageOutcome.errorMessageDrawn ∧
    PageOutcome.errorMessageDrawn ≠ PageOutcome.fatalAbort := by decide

/-- C1 (amended): every call wrapped in the DFBCHECK / FSCHECK macro aborts
fatally exactly when its result is not OK, and the DFBCHECK-wrapped calls
inside render_font_page do abort on failure; but the unwrapped page-font
CreateFont recovers by drawing an error message and returning. -/
theorem C1_fatal_check_macro :
    (∀ r : LibResult, DFBCHECK r = CheckOutcome.fatalAbort ↔ r ≠ LibResult.ok) ∧
    (∀ a d g : LibResult,
        render_font_page LibResult.failure LibResult.ok a d g =
          PageOutcome.fatalAbort) ∧
    (∀ d g : LibResult,
        render_font_page LibResult.ok LibResult.ok LibResult.failure d g =
          PageOutcome.fatalAbort) ∧
    render_font_page LibResult.ok LibResult.failure LibResult.ok LibResult.ok
        LibResult.ok = PageOutcome.errorMessageDrawn := by decide

/-- C2 counterexample: in test_streamed (with automatic provider selection
succeeding as an image), the two data buffers obtained from CreateDataBuffer
receive no Release at all, so not every handle is matched by exactly one
release. -/
theorem C2_counterexample :
    createCount (test_streamed_trace false false true true) HKind.dataBuffer = 2 ∧
    releaseCount (test_streamed_trace false false true true) HKind.dataBuffer = 0 := by
  decide

/-- C2 (amended): in df_databuffer's test_file and test_streamed, fonts,
surfaces and providers are matched create/release exactly; but the data
buffers (two per test) are never released, and of the two streaming threads
only the second (Media Streamer) is destroyed — this holds for every
combination of the --image and --video flags and provider-creation results. -/
theorem C2_handle_balance :
    ∀ useVideo useImage imageOk videoOk : Bool,
      tracksBalanced (test_file_trace useVideo useImage imageOk videoOk) ∧
      tracksBalanced (test_streamed_trace useVideo useImage imageOk videoOk) ∧
      createCount (test_streamed_trace useVideo useImage imageOk videoOk)
          HKind.streamThread = 2 ∧
      releaseCount (test_streamed_trace useVideo useImage imageOk videoOk)
          HKind.streamThread ≤ 1 := by
  intro a b c d
  cases a <;> cases b <;> cases c <;> cases d <;>
    exact ⟨by unfold tracksBalanced; decide, by unfold tracksBalanced; decide,
      by decide, by decide⟩

/-- C3 counterexample: one execution of df_databuffer reaches test_streamed,
which creates two background threads (Font Streamer and Media Streamer), so
"at most one background thread per execution" fails. -/
theorem C3_counterexample :
    createCount (test_streamed_trace false false true true) HKind.streamThread = 2 ∧
    ¬ createCount (test_streamed_trace false false true true) HKind.streamThread ≤ 1 := by
  decide

/-- C3 (amended): test_streamed creates exactly two background threads —
one per streamed data buffer, both running the streamer pacing loop — for
every flag/provider combination, while test_file creates none; no other
sample program calls direct_thread_create. -/
theorem C3_thread_count :
    ∀ useVideo useImage imageOk videoOk : Bool,
      createCount (test_streamed_trace useVideo useImage imageOk videoOk)
          HKind.streamThread = 2 ∧
      createCount (test_file_trace useVideo useImage imageOk videoOk)
          HKind.streamThread = 0 := by decide

/-- C6 counterexample: in df_image_sample's create_stack the second window
(insertion index 1) is created at (10, 5), not at (32, 18) as the claim's
linear law (32·k, 18·k) requires. -/
theorem C6_counterexample :
    (create_stack_positions 2)[1]? = some (10, 5) ∧
    ((10, 5) : Nat × Nat) ≠ (32 * 1, 18 * 1) := by decide

/-- C6 (amended): window placement is linear in insertion order in both
stack builders, but with different coefficients: add_window places the
window added with n entries present at (32·n, 18·n), while create_stack
places its k-th window at (10·k, 5·k). -/
theorem C6_window_positions (n k : Nat) (h : k < n) :
    add_window_pos k = (32 * k, 18 * k) ∧
    (create_stack_positions n)[k]? = some (10 * k, 5 * k) := by
  refine ⟨rfl, ?_⟩
  have := create_stack_go_getElem n 0 0 k h
  simpa [create_stack_positions] using this

/-- Witness for C6_window_positions at n = 3, k = 2. -/
theorem C6_window_positions_witness :
    2 < 3 ∧
      (add_window_pos 2 = (32 * 2, 18 * 2) ∧
        (create_stack_positions 3)[2]? = some (10 * 2, 5 * 2)) :=
  ⟨by decide, C6_window_positions 3 2 (by decide)⟩

/-- C8: for any color-adjustment step of +257 or -257, adjust_color sets
each selected field to the clamped stepped value, which always lies in
[0, 0xffff], and leaves unselected fields untouched. -/
theorem C8_adjust_color (flags : AdjFlags) (adj : ColorAdjustment) (step : Int)
    (hstep : step = 257 ∨ step = -257) :
    adjustSpec flags adj (adjust_color flags adj step) step := by
  unfold adjustSpec adjust_color
  refine ⟨rfl, rfl, rfl, rfl, ?_, ?_, ?_, ?_, ?_, ?_, ?_, ?_⟩ <;> intro hf <;>
    simp only [hf, if_true, if_false, Bool.false_eq_true] <;>
    first
      | exact CLAMP_bounds _ _ _ (by omega)
      | rfl

theorem font_keydown_inv (count : Int) (s : FontState) (k : FontKey)
    (s' : FontState) (hinv : fontInv count s)
    (hpage : GLYPHS_PER_PAGE s ≤ 0x10000)
    (hstep : font_keydown count s k = some s') : fontInv count s' := by
  obtain ⟨h1, h2, h3, h4, h5, h6⟩ := hinv
  have hp : (1 : Int) ≤ s.glyphsPerXline * s.glyphsPerYline := by
    have := mul_le_mul h5 h6 (by norm_num) (by omega)
    simpa using this
  unfold GLYPHS_PER_PAGE at hpage
  unfold fontInv
  cases k with
  | quitKey => simp [font_keydown] at hstep
  | pageDown =>
    simp only [font_keydown, GLYPHS_PER_PAGE, Option.some.injEq] at hstep
    subst hstep
    refine ⟨?_, ?_, h3, h4, h5, h6⟩ <;>
      · simp only []
        split <;> linarith
  | pageUp =>
    simp only [font_keydown, GLYPHS_PER_PAGE, Option.some.injEq] at hstep
    subst hstep
    refine ⟨?_, ?_, h3, h4, h5, h6⟩ <;>
      · simp only []
        split <;> linarith
  | nextFont =>
    simp only [font_keydown, Option.some.injEq] at hstep
    subst hstep
    refine ⟨h1, h2, ?_, ?_, h5, h6⟩ <;>
      · simp only []
        split <;> linarith
  | prevFont =>
    simp only [font_keydown, Option.some.injEq] at hstep
    subst hstep
    refine ⟨h1, h2, ?_, ?_, h5, h6⟩ <;>
      · simp only []
        split <;> linarith
  | keyA =>
    simp only [font_keydown, Option.some.injEq] at hstep
    subst hstep
    exact ⟨h1, h2, h3, h4, h5, h6⟩
  | keyD =>
    simp only [font_keydown, Option.some.injEq] at hstep
    subst hstep
    exact ⟨h1, h2, h3, h4, h5, h6⟩
  | keyB =>
    simp only [font_keydown, Option.some.injEq] at hstep
    subst hstep
    exact ⟨h1, h2, h3, h4, h5, h6⟩
  | keyR =>
    simp only [font_keydown, Option.some.injEq] at hstep
    subst hstep
    exact ⟨h1, h2, h3, h4, h5, h6⟩
  | keyG =>
    simp only [font_keydown, Option.some.injEq] at hstep
    subst hstep
    exact ⟨h1, h2, h3, h4, h5, h6⟩
  | keyO =>
    simp only [font_keydown, Option.some.injEq] at hstep
    subst hstep
    exact ⟨h1, h2, h3, h4, h5, h6⟩
  | keyM =>
    simp only [font_keydown, Option.some.injEq] at hstep
    subst hstep
    exact ⟨h1, h2, h3, h4, h5, h6⟩
  | keyU =>
    simp only [font_keydown, Option.some.injEq] at hstep
    subst hstep
    exact ⟨h1, h2, h3, h4, h5, h6⟩
  | helpKey =>
    simp only [font_keydown] at hstep
    split at hstep <;>
      · simp only [Option.some.injEq] at hstep
        subst hstep
        exact ⟨h1, h2, h3, h4, h5, h6⟩
  | minusKey =>
    simp only [font_keydown, Option.some.injEq] at hstep
    subst hstep
    refine ⟨h1, h2, h3, h4, ?_, ?_⟩ <;>
      · simp only []
        split <;> linarith
  | plusKey =>
    simp only [font_keydown, Option.some.injEq] at hstep
    subst hstep
    refine ⟨h1, h2, h3, h4, ?_, ?_⟩ <;>
      · dsimp only
        linarith
  | otherKey =>
    simp only [font_keydown, Option.some.injEq] at hstep
    subst hstep
    exact ⟨h1, h2, h3, h4, h5, h6⟩

theorem font_step_inv (count : Int) (s : FontState) (e : FontEv)
    (s' : FontState) (hinv : fontInv count s)
    (hpage : GLYPHS_PER_PAGE s ≤ 0x10000)
    (hstep : font_step count s e = some s') : fontInv count s' := by
  cases e with
  | keyup =>
    simp only [font_step, Option.some.injEq] at hstep
    subst hstep
    obtain ⟨h1, h2, h3, h4, h5, h6⟩ := hinv
    split <;> exact ⟨h1, h2, h3, h4, h5, h6⟩
  | keydown k => exact font_keydown_inv count s k s' hinv hpage hstep

theorem font_run_inv (count : Int) (evts : List FontEv) :
    ∀ (s s' : FontState), fontInv count s →
      font_pages_bounded count evts s = true →
      font_run count evts s = some s' → fontInv count s' := by
  induction evts with
  | nil =>
    intro s s' hinv _ hrun
    simp only [font_run, Option.some.injEq] at hrun
    subst hrun
    exact hinv
  | cons e rest ih =>
    intro s s' hinv hb hrun
    simp only [font_pages_bounded, Bool.and_eq_true, decide_eq_true_eq] at hb
    obtain ⟨hpage, hb'⟩ := hb
    simp only [font_run] at hrun
    cases hstep : font_step count s e with
    | none => rw [hstep] at hrun; exact Option.noConfusion hrun
    | some s1 =>
      rw [hstep] at hrun hb'
      exact ih s1 s' (font_step_inv count s e s1 hinv hpage hstep) hb' hrun

theorem font_step_none (count : Int) (s : FontState) (e : FontEv)
    (h : font_step count s e = none) : e = FontEv.keydown FontKey.quitKey := by
  cases e with
  | keyup => simp [font_step] at h
  | keydown k =>
    cases k with
    | quitKey => rfl
    | helpKey =>
      simp only [font_step, font_keydown] at h
      split at h <;> exact Option.noConfusion h
    | _ => simp [font_step, font_keydown] at h

theorem font_run_exit_cause (count : Int) (evts : List FontEv) :
    ∀ (s : FontState), font_run count evts s = none →
      FontEv.keydown FontKey.quitKey ∈ evts := by
  induction evts with
  | nil => intro s h; simp [font_run] at h
  | cons e rest ih =>
    intro s h
    simp only [font_run] at h
    cases hstep : font_step count s e with
    | none =>
      have he := font_step_none count s e hstep
      subst he
      exact List.mem_cons_self _ _
    | some s1 =>
      rw [hstep] at h
      exact List.mem_cons_of_mem _ (ih s1 h)

theorem image_loop_exit_cause (evts : List ImageEv) :
    ∀ (s : ImageLoopState), image_loop_run evts s = none →
      ImageEv.keydownQuit ∈ evts ∨ ∃ id, ImageEv.close id ∈ evts := by
  induction evts with
  | nil => intro s h; simp [image_loop_run] at h
  | cons e rest ih =>
    intro s h
    cases e with
    | keydownQuit => exact Or.inl (List.mem_cons_self _ _)
    | keydownOther =>
      rcases ih s h with h1 | ⟨id, h2⟩
      · exact Or.inl (List.mem_cons_of_mem _ h1)
      · exact Or.inr ⟨id, List.mem_cons_of_mem _ h2⟩
    | close id => exact Or.inr ⟨id, List.mem_cons_self _ _⟩
    | otherEvent =>
      rcases ih s h with h1 | ⟨id, h2⟩
      · exact Or.inl (List.mem_cons_of_mem _ h1)
      · exact Or.inr ⟨id, List.mem_cons_of_mem _ h2⟩

/-- Witness for C8_adjust_color: all four flags selected, step +257. -/
theorem C8_adjust_color_witness :
    ((257 : Int) = 257 ∨ (257 : Int) = -257) ∧
      adjustSpec ⟨true, true, true, true⟩ ⟨65535, 0, 100, 65535⟩
        (adjust_color ⟨true, true, true, true⟩ ⟨65535, 0, 100, 65535⟩ 257) 257 :=
  ⟨Or.inl rfl, C8_adjust_color ⟨true, true, true, true⟩ ⟨65535, 0, 100, 65535⟩ 257
      (Or.inl rfl)⟩

set_option maxRecDepth 4000 in
/-- C9 counterexample: pressing '+' 241 times raises the page size to
257 * 257 = 66049 > 0x10000, and one page-up then wraps first_glyph to
0x10000 - 66049 = -513, outside [0, 0xffff]. -/
theorem C9_counterexample :
    (font_run 1 fontOverflowTrace fontInit).map FontState.firstGlyph =
      some (-513) ∧ (-513 : Int) < 0 := by decide

/-- C9 (amended): with at least one font file, as long as the page size
glyphs_per_xline * glyphs_per_yline stays at most 0x10000 along the trace
(it starts at 256; this allows up to 240 net '+' presses), the navigation
state stays in range after any sequence of events: first_glyph in
[0, 0xffff], current_font a valid font index, and both glyph counts at
least 1. -/
theorem C9_page_nav_invariants (count : Int) (evts : List FontEv)
    (s' : FontState) (hc : 1 ≤ count)
    (hb : font_pages_bounded count evts fontInit = true)
    (hrun : font_run count evts fontInit = some s') : fontInv count s' := by
  have hinit : fontInv count fontInit := by
    refine ⟨?_, ?_, ?_, ?_, ?_, ?_⟩ <;> simp [fontInit] <;> omega
  exact font_run_inv count evts fontInit s' hinit hb hrun

/-- Witness for C9_page_nav_invariants: two font files, one page-down. -/
theorem C9_page_nav_invariants_witness :
    (1 : Int) ≤ 2 ∧ fontInv 2 { fontInit with firstGlyph := 256, update := true } :=
  ⟨by norm_num,
   C9_page_nav_invariants 2 [FontEv.keydown FontKey.pageDown]
     { fontInit with firstGlyph := 256, update := true }
     (by norm_num) (by decide) (by decide)⟩

/-- C4 counterexample: fs_music_sample's loop terminates with no user
input at all; the playlist below presses no key, its single track's status
reaches FMSTATE_FINISHED, and the program exits with quit still unset. -/
theorem C4_counterexample :
    fs_no_input fsPlaylistDone = true ∧
    fs_main_loop fsPlaylistDone 8 fsInitCtl = some false := by decide

/-- C4 (amended): the DirectFB viewers' loops terminate only on a user
quit action — df_image_sample's loop exits only when the events contain a
quit key or a window-close, and df_font_sample's only on a quit key — but
fs_music_sample also terminates without any user input once every track
has finished playing and repeat is off. -/
theorem C4_loop_termination :
    (∀ (evts : List ImageEv) (s : ImageLoopState),
        image_loop_run evts s = none →
          ImageEv.keydownQuit ∈ evts ∨ ∃ id, ImageEv.close id ∈ evts) ∧
    (∀ (count : Int) (evts : List FontEv) (s : FontState),
        font_run count evts s = none →
          FontEv.keydown FontKey.quitKey ∈ evts) ∧
    fs_no_input fsPlaylistDone = true ∧
    fs_main_loop fsPlaylistDone 8 fsInitCtl = some false :=
  ⟨fun evts s => image_loop_exit_cause evts s,
   fun count evts s => font_run_exit_cause count evts s,
   by decide, by decide⟩

/-- Witness for C4_loop_termination: a single quit key exits the font
sample's loop, and the quit key is indeed among the consumed events. -/
theorem C4_loop_termination_witness :
    font_run 1 [FontEv.keydown FontKey.quitKey] fontInit = none ∧
    FontEv.keydown FontKey.quitKey ∈ [FontEv.keydown FontKey.quitKey] :=
  ⟨by decide,
   C4_loop_termination.2.1 1 [FontEv.keydown FontKey.quitKey] fontInit (by decide)⟩

/-- C5: for every combination of the --info and logo options, the viewers'
main functions keep the claimed phase order: arguments are parsed before
the main interface is created, the provider is created only after the main
interface exists, rendering/playback starts only after the provider
exists, event polling starts only after rendering/playback, and the
releases come last. -/
theorem C5_phase_order :
    ∀ info useLogo : Bool,
      phaseOrdered (image_main_trace info useLogo) MainEv.createImageProvider
        MainEv.renderTo ∧
      phaseOrdered (video_main_trace info useLogo) MainEv.createVideoProvider
        MainEv.playTo := by
  intro info useLogo
  cases info <;> cases useLogo <;> exact ⟨by unfold phaseOrdered; decide, by unfold phaseOrdered; decide⟩

/-- C10: removing a window id that is not in the registry is a no-op: both
remove_window variants return NULL/false and leave the stack untouched,
and a DWET_CLOSE event for that id leaves the loop running with the stack
and the n_windows counter unchanged. -/
theorem C10_remove_unknown_noop (stack : List (Nat × StackEntry))
    (stackB : List (Nat × Nat)) (id : Nat) (n : Int)
    (h : direct_hash_lookup stack id = none)
    (hB : direct_hash_lookup stackB id = none) :
    remove_window stack id = (none, stack) ∧
    remove_window_b stackB id = (false, stackB) ∧
    image_loop_run [ImageEv.close id] ⟨stack, n⟩ = some ⟨stack, n⟩ := by
  refine ⟨?_, ?_, ?_⟩
  · simp [remove_window, h]
  · simp [remove_window_b, hB]
  · simp [image_loop_run, remove_window, h]

/-- Witness for C10_remove_unknown_noop: a one-window registry holding id
1, a close event for the unknown id 2. -/
theorem C10_remove_unknown_noop_witness :
    (direct_hash_lookup ([(1, StackEntry.mk 10 11)] : List (Nat × StackEntry)) 2 =
        none ∧
      direct_hash_lookup ([(1, 7)] : List (Nat × Nat)) 2 = none) ∧
    (remove_window [(1, StackEntry.mk 10 11)] 2 =
        (none, [(1, StackEntry.mk 10 11)]) ∧
      remove_window_b [(1, 7)] 2 = (false, [(1, 7)]) ∧
      image_loop_run [ImageEv.close 2] ⟨[(1, StackEntry.mk 10 11)], 1⟩ =
        some ⟨[(1, StackEntry.mk 10 11)], 1⟩) :=
  ⟨⟨by decide, by decide⟩,
   C10_remove_unknown_noop [(1, StackEntry.mk 10 11)] [(1, 7)] 2 1
     (by decide) (by decide)⟩

end DFBMedia
